import Mathlib

/-!
Verification of the bump-allocator ("memory pool" / "arena") code of
`src/Chapter7MemoryManagement` against its specification.

The repository contains three near-identical bump allocators:

* `DynamicMemoryAllocation.c`, section 3 (lines 128-154): a fixed-capacity
  `MemoryPool` with `create_pool`, `pool_alloc`, `destroy_pool`;
* `DynamicMemoryAllocation.c`, section 8 (lines 391-426): a chained
  `MemoryPool` whose blocks all have `POOL_BLOCK_SIZE = 1024` bytes;
* `MemoryLeaks.c` (lines 133-146): a static 1024-byte pool with
  `pool_alloc` and `pool_reset`;
* `StackVHeap.c` (lines 166-188): `MemoryArena` with `create_arena` and
  `arena_alloc`, the same fixed-capacity bump logic as the first variant.

Pointers returned by the C code are `base + used`; we model a returned
range by the natural-number offset of its start within its block (the
base address of a block is fixed, so two ranges in one block have equal
start addresses iff they have equal offsets).  A `NULL` return is `none`.
Calls to the system allocator `malloc` may fail; a `Bool` argument records
whether each such call returns a block.

All the counters are C `size_t` values, so the sums the code computes —
both in the guards (`pool->used + size > pool->capacity`) and in the
bumps (`pool->used += size`) — wrap modulo `2^64` (LP64).  `size_add`
below models that addition; in particular a request with
`used + size ≥ 2^64` wraps, can slip past a guard, and then corrupts
`used`, which several theorems below exhibit.
-/

/-- One more than `SIZE_MAX`: `size_t` arithmetic is modulo this value,
`2^64` on the LP64 platforms the repository targets. -/
def SIZE_T_LIMIT : Nat := 18446744073709551616

/-- Addition of two `size_t` values as C computes it: modulo `2^64`. -/
def size_add (a b : Nat) : Nat := (a + b) % SIZE_T_LIMIT

/-- The `MemoryPool` struct of `DynamicMemoryAllocation.c` section 3
(lines 128-132): `memory` records whether the backing `malloc(capacity)`
returned a block (`void* memory` non-NULL), `used` and `capacity` are the
byte counters of the struct. -/
structure MemoryPool where
  memory : Bool
  used : Nat
  capacity : Nat
deriving DecidableEq

/-- The function `create_pool` (`DynamicMemoryAllocation.c` lines 134-142).
`headerOk` is whether `malloc(sizeof(MemoryPool))` succeeded and `memOk`
whether `malloc(capacity)` did; the C code checks only the former: on
`headerOk` it returns the pool with `used = 0` and the given capacity,
whatever `memOk` was. -/
def create_pool (headerOk memOk : Bool) (capacity : Nat) : Option MemoryPool :=
  if headerOk then some { memory := memOk, used := 0, capacity := capacity } else none

/-- The function `pool_alloc` (`DynamicMemoryAllocation.c` lines 144-149):
if `used + size > capacity` — the `size_t` sum, wrapping modulo `2^64` —
it returns NULL (`none`) and changes nothing; otherwise it returns the
pointer `memory + used` (modelled by the offset `used`) and advances
`used` by `size`, again in `size_t` arithmetic.  `arena_alloc` of
`StackVHeap.c` (lines 176-181) is the same logic. -/
def pool_alloc (pool : MemoryPool) (size : Nat) : Option Nat × MemoryPool :=
  if size_add pool.used size > pool.capacity then (none, pool)
  else (some pool.used, { pool with used := size_add pool.used size })

/-- The block size of the chained pool of `DynamicMemoryAllocation.c`
section 8 (line 372, `#define POOL_BLOCK_SIZE 1024`). -/
def POOL_BLOCK_SIZE : Nat := 1024

/-- The chained `pool_alloc` (`DynamicMemoryAllocation.c` lines 407-417).
The chain of blocks is the list of their `used` counters, head first
(the head is `*pool`, the current block; every block's buffer holds
`POOL_BLOCK_SIZE` bytes).  `allocOk` is whether the `malloc` inside
`create_pool()` (lines 397-405) succeeds when a new block is needed.
When the chain is empty (`!*pool`) or the guard's `size_t` sum
`used + size` (wrapping modulo `2^64`) exceeds `POOL_BLOCK_SIZE`, a fresh
block is pushed and the allocation is made from it at offset `0` with no
further capacity check, exactly as in the C code; the bump `used += size`
is likewise `size_t` arithmetic.  The returned offset is within the head
block of the returned chain. -/
def chained_pool_alloc (allocOk : Bool) : List Nat → Nat → Option Nat × List Nat
  | [], size => if allocOk then (some 0, [size_add 0 size]) else (none, [])
  | u :: rest, size =>
    if size_add u size > POOL_BLOCK_SIZE then
      if allocOk then (some 0, size_add 0 size :: u :: rest) else (none, u :: rest)
    else (some u, size_add u size :: rest)

/-- The capacity of the static pool of `MemoryLeaks.c`
(line 133, `#define POOL_SIZE 1024`). -/
def POOL_SIZE : Nat := 1024

/-- The function `pool_alloc` of `MemoryLeaks.c` (lines 136-141), acting on
the static `memory_pool` of `POOL_SIZE` bytes: the state is the global
`pool_index`; the returned offset models the pointer
`&memory_pool[pool_index]`.  The same code appears in `StackVHeap.c`
lines 134-139. -/
def ml_pool_alloc (pool_index size : Nat) : Option Nat × Nat :=
  if size_add pool_index size > POOL_SIZE then (none, pool_index)
  else (some pool_index, size_add pool_index size)

/-- The function `pool_reset` of `MemoryLeaks.c` (lines 143-145): sets the
global `pool_index` back to `0`. -/
def pool_reset (_pool_index : Nat) : Nat := 0

/-- The `MemoryArena` struct of `StackVHeap.c` (lines 162-166): `start`
records whether `malloc(size)` returned a block, `size` is the capacity
and `used` the bump counter. -/
structure MemoryArena where
  start : Bool
  size : Nat
  used : Nat
deriving DecidableEq

/-- The function `create_arena` (`StackVHeap.c` lines 168-174): it stores
the result of `malloc(size)` without any check and always returns the
arena by value with the requested size and `used = 0`. -/
def create_arena (memOk : Bool) (size : Nat) : MemoryArena :=
  { start := memOk, size := size, used := 0 }

/-- The function `arena_alloc` (`StackVHeap.c` lines 176-181): the same
bump logic as `pool_alloc`, on a `MemoryArena`. -/
def arena_alloc (arena : MemoryArena) (s : Nat) : Option Nat × MemoryArena :=
  if size_add arena.used s > arena.size then (none, arena)
  else (some arena.used, { arena with used := size_add arena.used s })

/-- Modelled from the spec (section 4.1, behavior of
`allocate(arena, size, alignment)`): round `used` up to the nearest
multiple of `alignment`.  The source has no such computation: none of its
allocators takes an alignment parameter. -/
def align_up (used alignment : Nat) : Nat :=
  (used + alignment - 1) / alignment * alignment

/-- Modelled from the spec (section 4.1): the behavior bullet of
`allocate(arena, size, alignment)` — compute `rounded = align_up used
alignment`; if `rounded + size ≤ capacity`, reserve the range at offset
`rounded` and set `used = rounded + size`, else fail.  This models the
aligned allocate the spec describes, in the spec's ideal (unbounded)
arithmetic, for comparison with the source's `pool_alloc`, which takes
no alignment parameter. -/
def spec_allocate (pool : MemoryPool) (size alignment : Nat) :
    Option Nat × MemoryPool :=
  if align_up pool.used alignment + size ≤ pool.capacity then
    (some (align_up pool.used alignment),
      { pool with used := align_up pool.used alignment + size })
  else (none, pool)

/-- Run `pool_alloc` once per entry of `sizes`, collecting the
`(offset, size)` ranges of the successful calls together with the final
pool. -/
def alloc_list (pool : MemoryPool) : List Nat → List (Nat × Nat) × MemoryPool
  | [] => ([], pool)
  | size :: rest =>
    match pool_alloc pool size with
    | (some off, pool1) =>
      ((off, size) :: (alloc_list pool1 rest).1, (alloc_list pool1 rest).2)
    | (none, pool1) => alloc_list pool1 rest

/-- Two byte ranges, each given as `(offset, size)`, are disjoint. -/
def disjointRange (r1 r2 : Nat × Nat) : Prop :=
  r1.1 + r1.2 ≤ r2.1 ∨ r2.1 + r2.2 ≤ r1.1

instance (r1 r2 : Nat × Nat) : Decidable (disjointRange r1 r2) := by
  unfold disjointRange
  infer_instance

/-- The ranges a fault-free run of the bump allocator hands out: starting
at offset `u`, consecutive ranges of the given sizes. -/
def ranges_from (u : Nat) : List Nat → List (Nat × Nat)
  | [] => []
  | s :: rest => (u, s) :: ranges_from (u + s) rest

/-- When the request fits below a representable capacity, the `size_t` sum
does not wrap and `pool_alloc` succeeds at offset `used`, bumping `used`
by `size`. -/
theorem pool_alloc_succeeds (p : MemoryPool) (s : Nat)
    (h : p.used + s ≤ p.capacity) (hcap : p.capacity < SIZE_T_LIMIT) :
    pool_alloc p s = (some p.used, { p with used := p.used + s }) := by
  have hmod : size_add p.used s = p.used + s := by
    unfold size_add
    exact Nat.mod_eq_of_lt (by omega)
  unfold pool_alloc
  rw [hmod, if_neg (by omega)]

/-- When the sizes all fit, `alloc_list` hands out exactly the consecutive
ranges `ranges_from p.used sizes` and ends with `used` advanced by their
sum. -/
theorem alloc_list_fits (p : MemoryPool) (sizes : List Nat)
    (h : p.used + sizes.sum ≤ p.capacity) (hcap : p.capacity < SIZE_T_LIMIT) :
    alloc_list p sizes =
      (ranges_from p.used sizes, { p with used := p.used + sizes.sum }) := by
  induction sizes generalizing p with
  | nil => simp [alloc_list, ranges_from]
  | cons s rest ih =>
    have hsum : (s :: rest).sum = s + rest.sum := List.sum_cons
    have hs : p.used + s ≤ p.capacity := by rw [hsum] at h; omega
    have hrest : ({ p with used := p.used + s } : MemoryPool).used + rest.sum
        ≤ ({ p with used := p.used + s } : MemoryPool).capacity := by
      simp only []
      rw [hsum] at h; omega
    have hcap2 : ({ p with used := p.used + s } : MemoryPool).capacity
        < SIZE_T_LIMIT := hcap
    simp only [alloc_list, pool_alloc_succeeds p s hs hcap, ih _ hrest hcap2,
      ranges_from]
    simp only [hsum]
    rw [Nat.add_assoc]

/-- Every range of `ranges_from u sizes` starts at or after `u` and ends at
or before `u + sizes.sum`. -/
theorem ranges_from_mem (sizes : List Nat) (r : Nat × Nat) :
    ∀ u, r ∈ ranges_from u sizes → u ≤ r.1 ∧ r.1 + r.2 ≤ u + sizes.sum := by
  induction sizes with
  | nil => intro u hr; cases hr
  | cons s rest ih =>
    intro u hr
    cases hr with
    | head =>
      simp only [List.sum_cons]
      omega
    | tail _ hr =>
      have := ih (u + s) hr
      simp only [List.sum_cons]
      omega

/-- The consecutive ranges of a fault-free bump-allocator run are pairwise
disjoint. -/
theorem ranges_from_pairwise (sizes : List Nat) :
    ∀ u, List.Pairwise disjointRange (ranges_from u sizes) := by
  induction sizes with
  | nil => intro u; exact List.Pairwise.nil
  | cons s rest ih =>
    intro u
    refine List.Pairwise.cons ?_ (ih (u + s))
    intro r hr
    have hmem := ranges_from_mem rest r (u + s) hr
    exact Or.inl hmem.1

/-- Rounding up to a multiple of `1` changes nothing. -/
theorem align_up_one (u : Nat) : align_up u 1 = u := by
  unfold align_up
  omega

/-- Claim C1.  The claim states that `used` never exceeds `capacity` for any
block: an over-large request is chained or rejected, never reserved past
the block end.  The chained `pool_alloc` violates this: on a fresh chain
with one empty block, a request of 2000 bytes pushes a new
`POOL_BLOCK_SIZE = 1024`-byte block and sets its `used` counter to 2000,
reserving the range `[0, 2000)` which extends 976 bytes past the end of
the new block. -/
theorem C1_chained_overflow :
    chained_pool_alloc true [0] 2000 = (some 0, [2000, 0]) ∧
      POOL_BLOCK_SIZE < 2000 := by
  decide

/-- Claim C2.  For every sequence of `pool_alloc` calls on one pool whose
sizes together fit within the remaining capacity, the returned
`(offset, size)` ranges are pairwise disjoint and each lies entirely
within the block (its end is at most `capacity`), so no byte is ever
handed out twice. -/
theorem C2_nonaliasing (p : MemoryPool) (sizes : List Nat)
    (h : p.used + sizes.sum ≤ p.capacity) (hcap : p.capacity < SIZE_T_LIMIT) :
    List.Pairwise disjointRange (alloc_list p sizes).1 ∧
      ∀ r ∈ (alloc_list p sizes).1, r.1 + r.2 ≤ p.capacity := by
  rw [alloc_list_fits p sizes h hcap]
  refine ⟨ranges_from_pairwise sizes p.used, ?_⟩
  intro r hr
  have := ranges_from_mem sizes r p.used hr
  omega

/-- Witness for C2 at a fresh pool of capacity 64 and sizes 10, 10, 20. -/
theorem C2_nonaliasing_witness :
    (⟨true, 0, 64⟩ : MemoryPool).used + [10, 10, 20].sum ≤
        (⟨true, 0, 64⟩ : MemoryPool).capacity ∧
      (⟨true, 0, 64⟩ : MemoryPool).capacity < SIZE_T_LIMIT ∧
      List.Pairwise disjointRange (alloc_list ⟨true, 0, 64⟩ [10, 10, 20]).1 :=
  ⟨by decide, by decide,
    (C2_nonaliasing ⟨true, 0, 64⟩ [10, 10, 20] (by decide) (by decide)).1⟩

/-- Claim C3, counterexample.  The claim says every `allocate(size,
alignment)` call rounds `used` up to the nearest multiple of `alignment`.
The source's `pool_alloc` takes no alignment parameter and never rounds:
at `used = 1` it returns offset 1, while the claimed rounding for an
8-aligned request returns offset 8 (as the spec-modelled `spec_allocate`
does), and 1 is not a multiple of 8. -/
theorem C3_counterexample :
    (pool_alloc ⟨true, 1, 64⟩ 1).1 = some 1 ∧
      (spec_allocate ⟨true, 1, 64⟩ 1 8).1 = some 8 ∧ (1 : Nat) % 8 ≠ 0 := by
  decide

/-- Claim C3, amended.  `pool_alloc` takes no alignment parameter and does
no rounding: a call that fits (within a representable capacity, so the
`size_t` sum does not wrap) returns the range starting at the current
`used` and sets `used` to `used + size` — exactly the spec's formula
specialized to alignment 1; and on a fresh pool of capacity 64,
`allocate(10)` returns offset 0, a second `allocate(10)` returns offset
10, leaving `used = 20`. -/
theorem C3_bump_matches_spec_at_alignment_one :
    (∀ p s, p.used + s ≤ p.capacity → p.capacity < SIZE_T_LIMIT →
        pool_alloc p s = spec_allocate p s 1) ∧
      alloc_list ⟨true, 0, 64⟩ [10, 10] =
        ([(0, 10), (10, 10)], ⟨true, 20, 64⟩) := by
  constructor
  · intro p s h hcap
    rw [pool_alloc_succeeds p s h hcap]
    unfold spec_allocate
    rw [align_up_one, if_pos h]
  · decide

/-- Witness for C3's amended theorem: the first 10-byte allocation on a
fresh 64-byte pool agrees with the spec's allocate at alignment 1. -/
theorem C3_alignment_one_witness :
    (⟨true, 0, 64⟩ : MemoryPool).used + 10 ≤
        (⟨true, 0, 64⟩ : MemoryPool).capacity ∧
      pool_alloc ⟨true, 0, 64⟩ 10 = spec_allocate ⟨true, 0, 64⟩ 10 1 :=
  ⟨by decide,
    C3_bump_matches_spec_at_alignment_one.1 ⟨true, 0, 64⟩ 10 (by decide) (by decide)⟩

/-- Claim C4, counterexample.  The claim says every returned range starts
at a multiple of the requested alignment, and that in the spec's
scenario 3 the second `allocate(1, 8)` on a fresh 64-byte pool returns
offset 8, not offset 1.  The source's `pool_alloc` has no alignment
parameter: the second 1-byte allocation returns offset 1, which is not
a multiple of 8. -/
theorem C4_counterexample :
    pool_alloc (pool_alloc ⟨true, 0, 64⟩ 1).2 1 = (some 1, ⟨true, 2, 64⟩) ∧
      ¬(1 % 8 = 0) := by
  decide

/-- Claim C4, amended.  `pool_alloc` ignores alignment entirely: every
returned range starts exactly at the pool's current `used` counter, so
the start is guaranteed to be a multiple of 1 only. -/
theorem C4_offset_is_used (p : MemoryPool) (s off : Nat) (p1 : MemoryPool)
    (h : pool_alloc p s = (some off, p1)) : off = p.used ∧ off % 1 = 0 := by
  unfold pool_alloc at h
  split at h
  · simp at h
  · have hfst : some p.used = some off := congrArg Prod.fst h
    have hoff : p.used = off := by injection hfst
    exact ⟨hoff.symm, Nat.mod_one off⟩

/-- Witness for C4's amended theorem at `used = 1`, size 1. -/
theorem C4_offset_witness :
    (1 : Nat) = (⟨true, 1, 64⟩ : MemoryPool).used ∧ (1 : Nat) % 1 = 0 :=
  C4_offset_is_used ⟨true, 1, 64⟩ 1 1 ⟨true, 2, 64⟩ (by decide)

/-- Claim C5, counterexample.  The claim says the chained variant sizes a
new block as `max(default_block_size, size + alignment - 1)` and that the
retried allocation fits in the new block for every request size.  The
code always makes the new block `POOL_BLOCK_SIZE = 1024` bytes: for a
1500-byte request the claimed block size would be
`max(1024, 1500 + 1 - 1) = 1500`, but the code installs a 1024-byte
block and reserves `[0, 1500)` in it, which does not fit. -/
theorem C5_counterexample :
    chained_pool_alloc true [100] 1500 = (some 0, [1500, 100]) ∧
      POOL_BLOCK_SIZE < 1500 ∧
      POOL_BLOCK_SIZE ≠ max POOL_BLOCK_SIZE (1500 + 1 - 1) := by
  decide

/-- Claim C5, amended.  Whenever the chain is empty or the guard's
`size_t` sum `used + size` (wrapping modulo `2^64`) exceeds
`POOL_BLOCK_SIZE`, the chained `pool_alloc` pushes a new block of the
fixed size `POOL_BLOCK_SIZE` (1024 bytes), makes it the current block,
and serves the request from it at offset 0 with no further capacity
check — so the range fits in the new block only when
`size ≤ POOL_BLOCK_SIZE`; and a request whose `size_t` sum wraps to at
most `POOL_BLOCK_SIZE` (e.g. `used = 10`, `size = SIZE_MAX - 4`) is
served from the current block without chaining at all. -/
theorem C5_fixed_size_block :
    (∀ size, size < SIZE_T_LIMIT →
        chained_pool_alloc true [] size = (some 0, [size])) ∧
      (∀ u rest size, size < SIZE_T_LIMIT → POOL_BLOCK_SIZE < size_add u size →
        chained_pool_alloc true (u :: rest) size = (some 0, size :: u :: rest)) ∧
      chained_pool_alloc true [10] (SIZE_T_LIMIT - 5) = (some 10, [5]) := by
  refine ⟨?_, ?_, by decide⟩
  · intro size h
    have hm : size_add 0 size = size := by
      unfold size_add
      rw [Nat.zero_add]
      exact Nat.mod_eq_of_lt h
    simp [chained_pool_alloc, hm]
  · intro u rest size h hgt
    have hm : size_add 0 size = size := by
      unfold size_add
      rw [Nat.zero_add]
      exact Nat.mod_eq_of_lt h
    simp [chained_pool_alloc, hgt, hm]

/-- Witness for C5's amended theorem at a chain with one empty block and a
1025-byte request. -/
theorem C5_fixed_size_witness :
    (1025 : Nat) < SIZE_T_LIMIT ∧ POOL_BLOCK_SIZE < size_add 0 1025 ∧
      chained_pool_alloc true [0] 1025 = (some 0, [1025, 0]) :=
  ⟨by decide, by decide, C5_fixed_size_block.2.1 0 [] 1025 (by decide) (by decide)⟩

/-- Claim C6 (code evaluated at the failing input).  The claim says every
request that does not fit in the single block's remaining space fails
and is reported to the caller.  The guard `used + size > capacity` is
computed in `size_t`: on a 16-byte pool with 10 bytes used, a request of
`SIZE_MAX - 4` bytes does not fit (its true sum far exceeds 16), yet the
sum wraps to 5, the guard passes, and the call succeeds, returning
offset 10 and corrupting `used` down to 5.  The claim's own scenario
(`create(16)`; `allocate(10)`; `allocate(10)`) does fail as described,
as the last two conjuncts show, but the overflow input refutes the
universal statement. -/
theorem C6_wrap_bypass :
    pool_alloc ⟨true, 10, 16⟩ (SIZE_T_LIMIT - 5) = (some 10, ⟨true, 5, 16⟩) ∧
      16 < 10 + (SIZE_T_LIMIT - 5) ∧
      pool_alloc ⟨true, 0, 16⟩ 10 = (some 0, ⟨true, 10, 16⟩) ∧
      (pool_alloc ⟨true, 10, 16⟩ 10).1 = none := by
  decide

/-- Claim C7 (code evaluated at the failing input).  The claim says that
when the system allocator cannot provide the backing block, `create`
fails and no arena is produced.  In the code, when
`malloc(sizeof(MemoryPool))` succeeds but `malloc(capacity)` returns
NULL, `create_pool` still returns a non-NULL pool whose `memory` is NULL,
and `pool_alloc` on that pool reports success; `create_arena` of
`StackVHeap.c` never checks its `malloc` at all and always returns an
arena, on which `arena_alloc` likewise reports success. -/
theorem C7_create_unchecked :
    create_pool true false 64 = some ⟨false, 0, 64⟩ ∧
      (pool_alloc ⟨false, 0, 64⟩ 4).1 = some 0 ∧
      create_arena false 64 = ⟨false, 64, 0⟩ ∧
      (arena_alloc (create_arena false 64) 4).1 = some 0 := by
  decide

/-- Claim C8, counterexample.  The claim says an `allocate` with
`size == 0` fails with `InvalidArgument`; the code's `pool_alloc`
performs no argument validation and a 0-byte request on a fresh 64-byte
pool succeeds, returning offset 0. -/
theorem C8_counterexample : (pool_alloc ⟨true, 0, 64⟩ 0).1 = some 0 := by
  decide

/-- Claim C8, amended.  `pool_alloc` validates nothing (it takes no
alignment parameter and accepts `size = 0`): a call fails exactly when
the `size_t` sum `(used + size) mod 2^64` exceeds the capacity — so a
0-byte request on a fresh pool succeeds with the pool unchanged, and a
request far exceeding the remaining capacity can still succeed when the
sum wraps, as the last conjunct shows. -/
theorem C8_no_validation :
    (∀ p s, ((pool_alloc p s).1 = none ↔ p.capacity < size_add p.used s)) ∧
      pool_alloc ⟨true, 0, 64⟩ 0 = (some 0, ⟨true, 0, 64⟩) ∧
      (pool_alloc ⟨true, 10, 16⟩ (SIZE_T_LIMIT - 5)).1 = some 10 := by
  refine ⟨?_, by decide, by decide⟩
  intro p s
  unfold pool_alloc
  by_cases hc : size_add p.used s > p.capacity
  · rw [if_pos hc]
    exact ⟨fun _ => hc, fun _ => rfl⟩
  · rw [if_neg hc]
    exact ⟨fun hnone => absurd hnone (Option.some_ne_none _),
      fun hlt => absurd hlt hc⟩

/-- Claim C9.  After `pool_reset`, the next allocation that fits returns
the offset 0 — the pointer `&memory_pool[0]`, the block's base — which is
exactly the address returned by the very first allocation after creation;
so `allocate; reset; allocate` hands out the same starting address twice. -/
theorem C9_reset_returns_base (i s : Nat) (h : s ≤ POOL_SIZE) :
    (ml_pool_alloc (pool_reset i) s).1 = some 0 ∧
      (ml_pool_alloc 0 s).1 = some 0 := by
  have h1 : s ≤ 1024 := h
  unfold pool_reset ml_pool_alloc size_add POOL_SIZE SIZE_T_LIMIT
  rw [if_neg (by omega)]
  exact ⟨rfl, rfl⟩

/-- Witness for C9: allocate the full 1024 bytes, reset, allocate the full
1024 bytes again; both calls return offset 0. -/
theorem C9_reset_witness :
    (ml_pool_alloc (pool_reset (ml_pool_alloc 0 1024).2) 1024).1 = some 0 ∧
      (ml_pool_alloc 0 1024).1 = some 0 :=
  C9_reset_returns_base (ml_pool_alloc 0 1024).2 1024 (by decide)

/-- Claim C10.  Allocation failure is atomic: when `pool_alloc` fails
(returns NULL), the pool is exactly as before the call, so any later
allocation behaves as if the failing call had never happened. -/
theorem C10_failure_atomic (p : MemoryPool) (s : Nat)
    (h : (pool_alloc p s).1 = none) :
    (pool_alloc p s).2 = p ∧
      ∀ s2, pool_alloc (pool_alloc p s).2 s2 = pool_alloc p s2 := by
  have hp : pool_alloc p s = (none, p) := by
    unfold pool_alloc at h ⊢
    by_cases hc : size_add p.used s > p.capacity
    · rw [if_pos hc]
    · rw [if_neg hc] at h
      simp at h
  rw [hp]
  exact ⟨rfl, fun s2 => rfl⟩

/-- Witness for C10 at a 16-byte pool with 10 bytes used: the failing
10-byte request leaves the pool unchanged and a later 5-byte request
behaves as if it had never happened. -/
theorem C10_failure_atomic_witness :
    (pool_alloc ⟨true, 10, 16⟩ 10).2 = ⟨true, 10, 16⟩ ∧
      pool_alloc (pool_alloc ⟨true, 10, 16⟩ 10).2 5 =
        pool_alloc ⟨true, 10, 16⟩ 5 :=
  ⟨(C10_failure_atomic ⟨true, 10, 16⟩ 10 (by decide)).1,
    (C10_failure_atomic ⟨true, 10, 16⟩ 10 (by decide)).2 5⟩
